import Mathlib

/-!
Shallow embedding of `homework.py`, a fitness-tracker module that computes
distance, mean speed and spent calories for three workout types (running,
sports walking, swimming) and formats a report line.

Modelling conventions:
- Python numbers (`int` and `float`) are modelled as exact rationals `ℚ`;
  the program's formulas are plain field arithmetic plus one floor division.
- Python float floor division `a // b` is `⌊a / b⌋` cast back to `ℚ`.
- Raised exceptions are modelled with `Except PyError`; `print` output is
  modelled as a returned list of printed lines where a function prints.
- The fixed-point rendering `{x:.3f}` of `str.format` is modelled by
  `formatFix3`: round to the nearest thousandth, render the integer part in
  decimal and exactly three fractional digits.
-/

/-- Python exceptions that the source can raise. -/
inductive PyError where
  | notImplementedError : String → PyError
  | unboundLocalError : String → PyError
  | typeError : String → PyError

/-- `Training.M_IN_KM = 1000`, meters per kilometer. -/
def M_IN_KM : ℚ := 1000

/-- `Training.H_IN_M = 60`, minutes per hour. -/
def H_IN_M : ℚ := 60

/-- Decimal digits of a natural number, most significant first
(the rendering `str` / `format` applies to the integer part). -/
def natDigits (n : ℕ) : List Char :=
  if _h : n < 10 then [Nat.digitChar n]
  else natDigits (n / 10) ++ [Nat.digitChar (n % 10)]
termination_by n
decreasing_by exact Nat.div_lt_self (by omega) (by omega)

/-- Decimal string of a natural number. -/
def natStr (n : ℕ) : String := String.mk (natDigits n)

/-- The three fractional digits of `f < 1000`, as used by the `:.3f`
format specification after scaling by 1000. -/
def fracStr3 (f : ℕ) : String :=
  String.mk [Nat.digitChar (f / 100 % 10), Nat.digitChar (f / 10 % 10),
             Nat.digitChar (f % 10)]

/-- Model of Python's fixed-point formatting `{x:.3f}`: round `x` to the
nearest thousandth and print the integer part, a point, and exactly three
fractional digits. -/
def formatFix3 (q : ℚ) : String :=
  let m : ℕ := (round (|q| * 1000)).toNat
  (if q < 0 then "-" else "") ++ natStr (m / 1000) ++ "." ++ fracStr3 (m % 1000)

/-- The `InfoMessage` dataclass: training type label plus the four computed
metrics. The `message` template field is a class constant; its instantiation
is modelled inside `get_message`. -/
structure InfoMessage where
  training_type : String
  duration : ℚ
  distance : ℚ
  speed : ℚ
  calories : ℚ

/-- `InfoMessage.get_message`: `self.message.format(**asdict(self))` on the
template `Тип тренировки: {training_type}; Длительность: {duration:.3f} ч.;
Дистанция: {distance:.3f} км; Ср. скорость: {speed:.3f} км/ч;
Потрачено ккал: {calories:.3f}.` -/
def InfoMessage.get_message (m : InfoMessage) : String :=
  "Тип тренировки: " ++ m.training_type ++
  "; Длительность: " ++ formatFix3 m.duration ++
  " ч.; Дистанция: " ++ formatFix3 m.distance ++
  " км; Ср. скорость: " ++ formatFix3 m.speed ++
  " км/ч; Потрачено ккал: " ++ formatFix3 m.calories ++ "."

/-- Fields of the parent class `Training`. -/
structure Training where
  action : ℚ
  duration : ℚ
  weight : ℚ

namespace Training

/-- `Training.LEN_STEP = 0.65`. -/
def LEN_STEP : ℚ := 0.65

/-- `Training.get_distance`: `self.action * self.LEN_STEP / self.M_IN_KM`. -/
def get_distance (t : Training) : ℚ := t.action * LEN_STEP / M_IN_KM

/-- `Training.get_mean_speed`: `self.get_distance() / self.duration`. -/
def get_mean_speed (t : Training) : ℚ := t.get_distance / t.duration

/-- `Training.get_spent_calories` raises
`NotImplementedError('Переопределите get_spent_calories в {}'.format(cls))`
where `cls` is the runtime class name of `self`. -/
def get_spent_calories (cls : String) (_t : Training) : Except PyError ℚ :=
  Except.error (PyError.notImplementedError
    ("Переопределите get_spent_calories в " ++ cls))

end Training

/-- Fields of `Running` (inherited from `Training`). -/
structure Running where
  action : ℚ
  duration : ℚ
  weight : ℚ

namespace Running

/-- `Running.LEN_STEP = 0.65`. -/
def LEN_STEP : ℚ := 0.65

/-- `Running.coeff_run_1 = 18`. -/
def coeff_run_1 : ℚ := 18

/-- `Running.coeff_run_2 = 20`. -/
def coeff_run_2 : ℚ := 20

/-- Inherited `get_distance` with `self.LEN_STEP = Running.LEN_STEP`. -/
def get_distance (r : Running) : ℚ := r.action * LEN_STEP / M_IN_KM

/-- Inherited `get_mean_speed`. -/
def get_mean_speed (r : Running) : ℚ := r.get_distance / r.duration

/-- `Running.get_spent_calories`:
`(coeff_run_1 * mean_speed - coeff_run_2) * weight / M_IN_KM * time`
with `time = duration * H_IN_M`. -/
def get_spent_calories (r : Running) : ℚ :=
  let time := r.duration * H_IN_M
  (coeff_run_1 * r.get_mean_speed - coeff_run_2) * r.weight / M_IN_KM * time

/-- `show_training_info` builds the `InfoMessage` from the class name and
the four derived values. -/
def show_training_info (r : Running) : InfoMessage :=
  ⟨"Running", r.duration, r.get_distance, r.get_mean_speed,
   r.get_spent_calories⟩

end Running

/-- Python float floor division `a // b` is the floor of the real quotient. -/
def pyFloorDiv (a b : ℚ) : ℚ := (⌊a / b⌋ : ℤ)

/-- Fields of `SportsWalking`: inherited fields plus `height`. -/
structure SportsWalking where
  action : ℚ
  duration : ℚ
  weight : ℚ
  height : ℚ

namespace SportsWalking

/-- `SportsWalking.LEN_STEP = 0.65`. -/
def LEN_STEP : ℚ := 0.65

/-- `SportsWalking.coeff_weight_1 = 0.035`. -/
def coeff_weight_1 : ℚ := 0.035

/-- `SportsWalking.coeff_weight_2 = 0.029`. -/
def coeff_weight_2 : ℚ := 0.029

/-- Inherited `get_distance` with `self.LEN_STEP = SportsWalking.LEN_STEP`. -/
def get_distance (w : SportsWalking) : ℚ := w.action * LEN_STEP / M_IN_KM

/-- Inherited `get_mean_speed`. -/
def get_mean_speed (w : SportsWalking) : ℚ := w.get_distance / w.duration

/-- `SportsWalking.get_spent_calories`:
`(coeff_weight_1 * weight + (mean_speed**2 // height) * coeff_weight_2 *
weight) * time` with `time = duration * H_IN_M`. -/
def get_spent_calories (w : SportsWalking) : ℚ :=
  let time := w.duration * H_IN_M
  (coeff_weight_1 * w.weight
    + pyFloorDiv (w.get_mean_speed ^ 2) w.height * coeff_weight_2 * w.weight)
    * time

/-- `show_training_info` for `SportsWalking`. -/
def show_training_info (w : SportsWalking) : InfoMessage :=
  ⟨"SportsWalking", w.duration, w.get_distance, w.get_mean_speed,
   w.get_spent_calories⟩

end SportsWalking

/-- Fields of `Swimming`: inherited fields plus `length_pool`, `count_pool`. -/
structure Swimming where
  action : ℚ
  duration : ℚ
  weight : ℚ
  length_pool : ℚ
  count_pool : ℚ

namespace Swimming

/-- `Swimming.LEN_STEP = 1.38` (distance per stroke). -/
def LEN_STEP : ℚ := 1.38

/-- `Swimming.coeff_swim_1 = 1.1`. -/
def coeff_swim_1 : ℚ := 1.1

/-- `Swimming.coeff_swim_2 = 2`. -/
def coeff_swim_2 : ℚ := 2

/-- Inherited `get_distance` with `self.LEN_STEP = Swimming.LEN_STEP`. -/
def get_distance (s : Swimming) : ℚ := s.action * LEN_STEP / M_IN_KM

/-- `Swimming.get_mean_speed` (overrides the base formula):
`length_pool * count_pool / M_IN_KM / duration`. -/
def get_mean_speed (s : Swimming) : ℚ :=
  s.length_pool * s.count_pool / M_IN_KM / s.duration

/-- `Swimming.get_spent_calories`:
`(mean_speed + coeff_swim_1) * coeff_swim_2 * weight`. -/
def get_spent_calories (s : Swimming) : ℚ :=
  (s.get_mean_speed + coeff_swim_1) * coeff_swim_2 * s.weight

/-- `show_training_info` for `Swimming`. -/
def show_training_info (s : Swimming) : InfoMessage :=
  ⟨"Swimming", s.duration, s.get_distance, s.get_mean_speed,
   s.get_spent_calories⟩

end Swimming

/-- A constructed workout of one of the three concrete classes. -/
inductive Workout where
  | swm : Swimming → Workout
  | run : Running → Workout
  | wlk : SportsWalking → Workout

/-- The classes stored in `workout_table`. -/
inductive TrainingClass where
  | swimmingC
  | runningC
  | sportsWalkingC

/-- The dictionary `{'SWM': Swimming, 'RUN': Running, 'WLK': SportsWalking}`
as a lookup returning `none` exactly when Python raises `KeyError`. -/
def workout_table (code : String) : Option TrainingClass :=
  if code = "SWM" then some TrainingClass.swimmingC
  else if code = "RUN" then some TrainingClass.runningC
  else if code = "WLK" then some TrainingClass.sportsWalkingC
  else none

/-- `train_type(*workout_data)`: positional construction of the selected
class. A wrong number of arguments raises `TypeError` inside the
constructor call (the factory itself performs no validation). -/
def constructTraining : TrainingClass → List ℚ → Except PyError Workout
  | TrainingClass.swimmingC, [a, d, w, lp, cp] =>
      Except.ok (Workout.swm ⟨a, d, w, lp, cp⟩)
  | TrainingClass.runningC, [a, d, w] => Except.ok (Workout.run ⟨a, d, w⟩)
  | TrainingClass.sportsWalkingC, [a, d, w, h] =>
      Except.ok (Workout.wlk ⟨a, d, w, h⟩)
  | TrainingClass.swimmingC, _ =>
      Except.error (PyError.typeError "Swimming() wrong argument count")
  | TrainingClass.runningC, _ =>
      Except.error (PyError.typeError "Running() wrong argument count")
  | TrainingClass.sportsWalkingC, _ =>
      Except.error (PyError.typeError "SportsWalking() wrong argument count")

/-- `read_package`: looks `work_type` up in `workout_table` inside a
`try`/`except KeyError` whose handler only prints the unsupported-type
message; control then falls through to `train_type = train_type(*workout_data)`
where the local `train_type` was never assigned, so the unknown-code path
raises `UnboundLocalError` after printing. The first component is the list
of printed lines, the second the returned value or the raised exception. -/
def read_package (work_type : String) (workout_data : List ℚ) :
    List String × Except PyError Workout :=
  match workout_table work_type with
  | some cls => ([], constructTraining cls workout_data)
  | none => (["Данный тип тренировки не поддерживается."],
             Except.error (PyError.unboundLocalError "train_type"))

/-- Dynamic dispatch of `get_distance`, threading the object state: the
returned second component is the post-call state of `self`. No method body
assigns to any attribute, so the state is returned unchanged. -/
def Workout.get_distanceS : Workout → ℚ × Workout
  | Workout.swm s => (s.get_distance, Workout.swm s)
  | Workout.run r => (r.get_distance, Workout.run r)
  | Workout.wlk w => (w.get_distance, Workout.wlk w)

/-- Dynamic dispatch of `get_mean_speed` with state threading. -/
def Workout.get_mean_speedS : Workout → ℚ × Workout
  | Workout.swm s => (s.get_mean_speed, Workout.swm s)
  | Workout.run r => (r.get_mean_speed, Workout.run r)
  | Workout.wlk w => (w.get_mean_speed, Workout.wlk w)

/-- Dynamic dispatch of `get_spent_calories` with state threading. -/
def Workout.get_spent_caloriesS : Workout → ℚ × Workout
  | Workout.swm s => (s.get_spent_calories, Workout.swm s)
  | Workout.run r => (r.get_spent_calories, Workout.run r)
  | Workout.wlk w => (w.get_spent_calories, Workout.wlk w)

/-- Dynamic dispatch of `show_training_info` with state threading. -/
def Workout.show_training_infoS : Workout → InfoMessage × Workout
  | Workout.swm s => (s.show_training_info, Workout.swm s)
  | Workout.run r => (r.show_training_info, Workout.run r)
  | Workout.wlk w => (w.show_training_info, Workout.wlk w)

/-- A string renders a fixed-point number with exactly three decimal
places: it splits as integer part, point, and a three-character all-digit
fractional part, with no further point in the integer part. -/
def rendersFixed3 (s : String) : Prop :=
  ∃ ip fr, s = ip ++ "." ++ fr ∧ fr.length = 3 ∧
    (∀ c ∈ fr.data, c.isDigit = true) ∧ ∀ c ∈ ip.data, c ≠ '.'

theorem digitChar_isDigit (m : ℕ) (h : m < 10) : (Nat.digitChar m).isDigit = true := by
  revert h
  revert m
  decide

theorem isDigit_ne_dot {c : Char} (h : c.isDigit = true) : c ≠ '.' := by
  intro hEq
  subst hEq
  exact absurd h (by decide)

theorem natDigits_isDigit (n : ℕ) : ∀ c ∈ natDigits n, c.isDigit = true := by
  induction n using Nat.strong_induction_on with
  | _ n ih =>
    rw [natDigits]
    split
    · next h =>
      intro c hc
      simp only [List.mem_singleton] at hc
      subst hc
      exact digitChar_isDigit n h
    · next h =>
      intro c hc
      rcases List.mem_append.mp hc with h1 | h2
      · exact ih (n / 10) (Nat.div_lt_self (by omega) (by omega)) c h1
      · simp only [List.mem_singleton] at h2
        subst h2
        exact digitChar_isDigit _ (Nat.mod_lt _ (by omega))

theorem formatFix3_renders (q : ℚ) : rendersFixed3 (formatFix3 q) := by
  refine ⟨(if q < 0 then "-" else "") ++
            natStr ((round (|q| * 1000)).toNat / 1000),
          fracStr3 ((round (|q| * 1000)).toNat % 1000), rfl, rfl, ?_, ?_⟩
  · intro c hc
    have hc' : c ∈ [Nat.digitChar ((round (|q| * 1000)).toNat % 1000 / 100 % 10),
                    Nat.digitChar ((round (|q| * 1000)).toNat % 1000 / 10 % 10),
                    Nat.digitChar ((round (|q| * 1000)).toNat % 1000 % 10)] := hc
    simp only [List.mem_cons, List.not_mem_nil, or_false] at hc'
    rcases hc' with rfl | rfl | rfl <;>
      exact digitChar_isDigit _ (Nat.mod_lt _ (by omega))
  · intro c hc
    have hc' : c ∈ ((if q < 0 then "-" else "") : String).data ++
        natDigits ((round (|q| * 1000)).toNat / 1000) := hc
    rcases List.mem_append.mp hc' with h1 | h2
    · split at h1
      · have : c = '-' := by simpa using h1
        subst this
        decide
      · simp at h1
    · exact isDigit_ne_dot (natDigits_isDigit _ c h2)

/-- Claim C1 (code-level behaviour at the failing input): on an unsupported
code such as "XYZ", `read_package` prints the unsupported-workout-type
message but then raises `UnboundLocalError` on the never-assigned local
`train_type`, contradicting the claim that it aborts the record without an
unbound-reference failure. -/
theorem claim_C1_unbound_local :
    read_package "XYZ" [720, 1, 80] =
      (["Данный тип тренировки не поддерживается."],
       Except.error (PyError.unboundLocalError "train_type")) := rfl

/-- Claim C2 (amended): for Running(action=15000, duration=1, weight=75),
`get_distance` is exactly 9.75 km, `get_mean_speed` is 9.75, and
`get_spent_calories` is exactly the formula value
(18 × 9.75 − 20) × 75 / 1000 × 60 = 699.75, with no rounding during
computation. -/
theorem claim_C2_running_example :
    Running.get_distance ⟨15000, 1, 75⟩ = 9.75 ∧
    Running.get_mean_speed ⟨15000, 1, 75⟩ = 9.75 ∧
    Running.get_spent_calories ⟨15000, 1, 75⟩ =
      (18 * 9.75 - 20) * 75 / 1000 * 60 ∧
    Running.get_spent_calories ⟨15000, 1, 75⟩ = 699.75 := by
  refine ⟨?_, ?_, ?_, ?_⟩ <;>
    norm_num [Running.get_distance, Running.get_mean_speed,
      Running.get_spent_calories, Running.LEN_STEP, Running.coeff_run_1,
      Running.coeff_run_2, M_IN_KM, H_IN_M]

/-- Claim C2 counterexample: the exact value of the formula
(18 × 9.75 − 20) × 75 / 1000 × 60 that `get_spent_calories` returns is
699.75, which is not approximately 689.89 — it misses it by 9.86, far
beyond any display tolerance of 0.5. -/
theorem claim_C2_counterexample :
    Running.get_spent_calories ⟨15000, 1, 75⟩ =
      (18 * 9.75 - 20) * 75 / 1000 * 60 ∧
    Running.get_spent_calories ⟨15000, 1, 75⟩ = 699.75 ∧
    ¬(689.89 - 1/2 ≤ Running.get_spent_calories ⟨15000, 1, 75⟩ ∧
      Running.get_spent_calories ⟨15000, 1, 75⟩ ≤ 689.89 + 1/2) := by
  refine ⟨?_, ?_, ?_⟩ <;>
    norm_num [Running.get_distance, Running.get_mean_speed,
      Running.get_spent_calories, Running.LEN_STEP, Running.coeff_run_1,
      Running.coeff_run_2, M_IN_KM, H_IN_M]

/-- Claim C3: for every SportsWalking workout with positive duration and
height, `get_spent_calories` equals
(0.035 × weight + ⌊mean_speed² / height⌋ × 0.029 × weight) × (duration × 60),
where the inner division is the floor of the real-valued ratio. -/
theorem claim_C3_walking_floor_div (w : SportsWalking)
    (hd : 0 < w.duration) (hh : 0 < w.height) :
    w.get_spent_calories =
      (0.035 * w.weight
        + (⌊w.get_mean_speed ^ 2 / w.height⌋ : ℚ) * 0.029 * w.weight)
        * (w.duration * 60) := by
  simp [SportsWalking.get_spent_calories, pyFloorDiv,
    SportsWalking.coeff_weight_1, SportsWalking.coeff_weight_2, H_IN_M]

/-- Witness for claim C3 at SportsWalking(9000, 1, 75, 180). -/
theorem claim_C3_walking_floor_div_witness :
    (0 : ℚ) < 1 ∧ (0 : ℚ) < 180 ∧
    SportsWalking.get_spent_calories ⟨9000, 1, 75, 180⟩ =
      (0.035 * (75 : ℚ)
        + (⌊SportsWalking.get_mean_speed ⟨9000, 1, 75, 180⟩ ^ 2 / (180 : ℚ)⌋ : ℚ)
          * 0.029 * 75) * (1 * 60) :=
  ⟨by norm_num, by norm_num,
   claim_C3_walking_floor_div ⟨9000, 1, 75, 180⟩
     (show (0 : ℚ) < 1 by norm_num) (show (0 : ℚ) < 180 by norm_num)⟩

/-- Claim C4: for every Swimming workout with positive duration,
`get_mean_speed` is length_pool × count_pool / 1000 / duration and
`get_spent_calories` is (mean_speed + 1.1) × 2 × weight; at
Swimming(720, 1, 80, 25, 40) the mean speed is 1.0 and calories 336.0. -/
theorem claim_C4_swimming (s : Swimming) (hd : 0 < s.duration) :
    s.get_mean_speed = s.length_pool * s.count_pool / 1000 / s.duration ∧
    s.get_spent_calories = (s.get_mean_speed + 1.1) * 2 * s.weight ∧
    Swimming.get_mean_speed ⟨720, 1, 80, 25, 40⟩ = 1 ∧
    Swimming.get_spent_calories ⟨720, 1, 80, 25, 40⟩ = 336 := by
  refine ⟨rfl, rfl, ?_, ?_⟩ <;>
    norm_num [Swimming.get_mean_speed, Swimming.get_spent_calories,
      Swimming.coeff_swim_1, Swimming.coeff_swim_2, M_IN_KM]

/-- Witness for claim C4 at Swimming(720, 1, 80, 25, 40). -/
theorem claim_C4_swimming_witness :
    (0 : ℚ) < 1 ∧
    (Swimming.get_mean_speed ⟨720, 1, 80, 25, 40⟩ =
        (25 : ℚ) * 40 / 1000 / 1 ∧
      Swimming.get_spent_calories ⟨720, 1, 80, 25, 40⟩ =
        (Swimming.get_mean_speed ⟨720, 1, 80, 25, 40⟩ + 1.1) * 2 * 80 ∧
      Swimming.get_mean_speed ⟨720, 1, 80, 25, 40⟩ = 1 ∧
      Swimming.get_spent_calories ⟨720, 1, 80, 25, 40⟩ = 336) :=
  ⟨by norm_num,
   claim_C4_swimming ⟨720, 1, 80, 25, 40⟩ (show (0 : ℚ) < 1 by norm_num)⟩

/-- Claim C5: invoking the base class `get_spent_calories` always raises
`NotImplementedError` whose message names the concrete class, and never
returns a numeric value. -/
theorem claim_C5_base_raises (cls : String) (t : Training) :
    Training.get_spent_calories cls t =
      Except.error (PyError.notImplementedError
        ("Переопределите get_spent_calories в " ++ cls)) ∧
    ∀ v : ℚ, Training.get_spent_calories cls t ≠ Except.ok v :=
  ⟨rfl, fun _ h => Except.noConfusion h⟩

/-- Claim C6: `get_message` renders exactly the report template, and each
of duration, distance, speed and calories is rendered with exactly three
decimal places regardless of input precision. -/
theorem claim_C6_message_format (m : InfoMessage) :
    m.get_message =
      "Тип тренировки: " ++ m.training_type ++
      "; Длительность: " ++ formatFix3 m.duration ++
      " ч.; Дистанция: " ++ formatFix3 m.distance ++
      " км; Ср. скорость: " ++ formatFix3 m.speed ++
      " км/ч; Потрачено ккал: " ++ formatFix3 m.calories ++ "." ∧
    rendersFixed3 (formatFix3 m.duration) ∧
    rendersFixed3 (formatFix3 m.distance) ∧
    rendersFixed3 (formatFix3 m.speed) ∧
    rendersFixed3 (formatFix3 m.calories) :=
  ⟨rfl, formatFix3_renders _, formatFix3_renders _, formatFix3_renders _,
   formatFix3_renders _⟩

/-- Claim C7: for Running and SportsWalking with positive duration,
`get_distance` is action × 0.65 / 1000 and `get_mean_speed` is
distance / duration. -/
theorem claim_C7_base_formulas (r : Running) (w : SportsWalking)
    (hr : 0 < r.duration) (hw : 0 < w.duration) :
    r.get_distance = r.action * 0.65 / 1000 ∧
    r.get_mean_speed = r.get_distance / r.duration ∧
    w.get_distance = w.action * 0.65 / 1000 ∧
    w.get_mean_speed = w.get_distance / w.duration :=
  ⟨rfl, rfl, rfl, rfl⟩

/-- Witness for claim C7 at Running(15000, 1, 75) and
SportsWalking(9000, 1, 75, 180). -/
theorem claim_C7_base_formulas_witness :
    ((0 : ℚ) < 1 ∧ (0 : ℚ) < 1) ∧
    (Running.get_distance ⟨15000, 1, 75⟩ = (15000 : ℚ) * 0.65 / 1000 ∧
      Running.get_mean_speed ⟨15000, 1, 75⟩ =
        Running.get_distance ⟨15000, 1, 75⟩ / 1 ∧
      SportsWalking.get_distance ⟨9000, 1, 75, 180⟩ =
        (9000 : ℚ) * 0.65 / 1000 ∧
      SportsWalking.get_mean_speed ⟨9000, 1, 75, 180⟩ =
        SportsWalking.get_distance ⟨9000, 1, 75, 180⟩ / 1) :=
  ⟨⟨by norm_num, by norm_num⟩,
   claim_C7_base_formulas ⟨15000, 1, 75⟩ ⟨9000, 1, 75, 180⟩
     (show (0 : ℚ) < 1 by norm_num) (show (0 : ℚ) < 1 by norm_num)⟩

/-- Claim C8: `read_package` maps "SWM" to Swimming, "RUN" to Running and
"WLK" to SportsWalking, constructing the variant positionally from the
argument list, and performs no arity validation itself — a mismatched
argument count surfaces as a constructor `TypeError`. -/
theorem claim_C8_factory_dispatch (a d w h lp cp : ℚ) :
    read_package "SWM" [a, d, w, lp, cp] =
      ([], Except.ok (Workout.swm ⟨a, d, w, lp, cp⟩)) ∧
    read_package "RUN" [a, d, w] = ([], Except.ok (Workout.run ⟨a, d, w⟩)) ∧
    read_package "WLK" [a, d, w, h] =
      ([], Except.ok (Workout.wlk ⟨a, d, w, h⟩)) ∧
    ∃ e, read_package "RUN" [a, d, w, h] =
      ([], Except.error (PyError.typeError e)) :=
  ⟨rfl, rfl, rfl, "Running() wrong argument count", rfl⟩

/-- Claim C9: the computations are pure — dispatching `get_distance`,
`get_mean_speed`, `get_spent_calories` or `show_training_info` on any
constructed workout returns the object state unchanged. -/
theorem claim_C9_methods_pure (t : Workout) :
    t.get_distanceS.2 = t ∧ t.get_mean_speedS.2 = t ∧
    t.get_spent_caloriesS.2 = t ∧ t.show_training_infoS.2 = t := by
  cases t <;> exact ⟨rfl, rfl, rfl, rfl⟩

/-- Claim C10: Swimming inherits the base distance formula but with its own
stroke length constant 1.38 m, different from the 0.65 m step length. -/
theorem claim_C10_swimming_distance (s : Swimming) :
    s.get_distance = s.action * 1.38 / 1000 ∧
    Swimming.LEN_STEP = 1.38 ∧ Swimming.LEN_STEP ≠ (0.65 : ℚ) :=
  ⟨rfl, rfl, by norm_num [Swimming.LEN_STEP]⟩
